import Mathlib

/-!
Verification of the Bezier curve flattening core (src/sdf/bezier.go).

Embedding conventions:
- Go `float64` values are modelled as real numbers `ℝ`; Go floating comparisons
  become real comparisons (decided classically).
- A Go `panic` is modelled as `Except.error` with the panic message; functions
  that can panic return `Except String _`.
- Helpers of the repository that live outside src/ (`ZeroSmall`, `V2.Equals`,
  `PolarToXY`) and the standard library's `math.Atan2` are modelled from the
  spec's description; each carries a doc comment saying so.
- The adaptive sampling `for t < 1.0` loop is modelled with an explicit fuel
  parameter; a fuel-stability lemma proves that fuel 1000 saturates (the loop
  leaves via its guard within 999 iterations), so the fuel is not a truncation.
-/

open scoped Classical

/-- Error message used where `BezierPolynomial.Set` / `f0` hit the default
switch branch (Go: fmt.Sprintf with the bad order). -/
def errBadOrder : String := "bad polynomial order"

/-- src/sdf/bezier.go line 18: `const POLY_EPSILON = 1e-12`. -/
noncomputable def POLY_EPSILON : ℝ := 1 / 10 ^ 12

/-- Modelled from the spec: `ZeroSmall` lives in this repository outside src/.
Spec section 4.1: "any coefficient with |coef| <= 1e-12 * S ... is replaced
by 0" where the second argument is the reference magnitude S and the third the
relative threshold. -/
noncomputable def ZeroSmall (x y epsilon : ℝ) : ℝ :=
  if |x| ≤ y * epsilon then 0 else x

/-- src/sdf/bezier.go lines 22-25: polynomial order `n` and coefficients
`a`..`e` (Go zero value 0 for coefficients beyond the order). -/
structure BezierPolynomial where
  n : ℕ
  a : ℝ
  b : ℝ
  c : ℝ
  d : ℝ
  e : ℝ

/-- src/sdf/bezier.go lines 116-122: the tail of `BezierPolynomial.Set`.
Sums the absolute coefficient magnitudes and snaps relatively-small
coefficients to exactly zero via `ZeroSmall`. -/
noncomputable def BezierPolynomial.snapSmall (p : BezierPolynomial) : BezierPolynomial :=
  { p with
    a := ZeroSmall p.a (|p.a| + |p.b| + |p.c| + |p.d| + |p.e|) POLY_EPSILON
    b := ZeroSmall p.b (|p.a| + |p.b| + |p.c| + |p.d| + |p.e|) POLY_EPSILON
    c := ZeroSmall p.c (|p.a| + |p.b| + |p.c| + |p.d| + |p.e|) POLY_EPSILON
    d := ZeroSmall p.d (|p.a| + |p.b| + |p.c| + |p.d| + |p.e|) POLY_EPSILON
    e := ZeroSmall p.e (|p.a| + |p.b| + |p.c| + |p.d| + |p.e|) POLY_EPSILON }

/-- src/sdf/bezier.go lines 88-115 without the zero-snapping tail: the raw
Bezier-to-power-basis coefficient expansion (`p.n = len(x) - 1`, switch on the
order, default branch aborts with a bad-order message). Kept separate so that
theorems can say exactly when the snapping step of `Set` is the identity. -/
def BezierPolynomial.SetNoSnap (x : List ℝ) : Except String BezierPolynomial :=
  match x with
  | [x0, x1] =>
      .ok ⟨1, x0, -x0 + x1, 0, 0, 0⟩
  | [x0, x1, x2] =>
      .ok ⟨2, x0, -2 * x0 + 2 * x1, x0 - 2 * x1 + x2, 0, 0⟩
  | [x0, x1, x2, x3] =>
      .ok ⟨3, x0, -3 * x0 + 3 * x1, 3 * x0 - 6 * x1 + 3 * x2,
        -x0 + 3 * x1 - 3 * x2 + x3, 0⟩
  | [x0, x1, x2, x3, x4] =>
      .ok ⟨4, x0, -4 * x0 + 4 * x1, 6 * x0 - 12 * x1 + 6 * x2,
        -4 * x0 + 12 * x1 - 12 * x2 + 4 * x3,
        x0 - 4 * x1 + 6 * x2 - 4 * x3 + x4⟩
  | _ => .error errBadOrder

/-- src/sdf/bezier.go lines 88-123: `BezierPolynomial.Set` computes the power
basis coefficients for `n = len(x) - 1` in 1..4 (anything else hits the
aborting default branch) and then zeroes out very small coefficients. -/
noncomputable def BezierPolynomial.Set (x : List ℝ) : Except String BezierPolynomial :=
  (BezierPolynomial.SetNoSnap x).map BezierPolynomial.snapSmall

/-- src/sdf/bezier.go lines 28-45: Horner evaluation of the polynomial; the
default branch aborts in the source and is unreachable for polynomials built
by `Set` (modelled as 0). -/
noncomputable def BezierPolynomial.f0 (p : BezierPolynomial) (t : ℝ) : ℝ :=
  match p.n with
  | 1 => p.a + t * p.b
  | 2 => p.a + t * (p.b + t * p.c)
  | 3 => p.a + t * (p.b + t * (p.c + t * p.d))
  | 4 => p.a + t * (p.b + t * (p.c + t * (p.d + t * p.e)))
  | _ => 0

/-- src/sdf/bezier.go lines 48-65: first derivative of the polynomial; the
aborting default branch is modelled as 0 (unreachable via `Set`). -/
noncomputable def BezierPolynomial.f1 (p : BezierPolynomial) (t : ℝ) : ℝ :=
  match p.n with
  | 1 => p.b
  | 2 => p.b + t * 2 * p.c
  | 3 => p.b + t * (2 * p.c + t * 3 * p.d)
  | 4 => p.b + t * (2 * p.c + t * (3 * p.d + t * 4 * p.e))
  | _ => 0

/-- Helper: `ZeroSmall` at a coefficient that is exactly zero returns zero
(whenever the reference magnitude is nonnegative). -/
theorem ZeroSmall_zero (y : ℝ) (hy : 0 ≤ y) : ZeroSmall 0 y POLY_EPSILON = 0 := by
  have : |(0 : ℝ)| ≤ y * POLY_EPSILON := by
    simp only [abs_zero]
    exact mul_nonneg hy (by rw [POLY_EPSILON]; norm_num)
  simp [ZeroSmall, this]

/-- Helper: `ZeroSmall` leaves a coefficient alone when it is not small
relative to the reference magnitude. -/
theorem ZeroSmall_of_not_le (x y : ℝ) (h : ¬ |x| ≤ y * POLY_EPSILON) :
    ZeroSmall x y POLY_EPSILON = x := by
  simp [ZeroSmall, h]

/-- Helper: `ZeroSmall` snaps a relatively small coefficient to zero. -/
theorem ZeroSmall_of_le (x y : ℝ) (h : |x| ≤ y * POLY_EPSILON) :
    ZeroSmall x y POLY_EPSILON = 0 := by
  simp [ZeroSmall, h]

/-- C1 counterexample: for order 1 with control values `[1e-13, 1]` the
computed coefficient `a = 1e-13` is snapped to zero by the zero-small step
(`|a| = 1e-13 <= 1e-12 * (|a| + |b|) = 1e-12 * 1`), so `f0 0 = 0` is not the
first control value. -/
theorem c1_counterexample :
    (BezierPolynomial.Set [(1 : ℝ) / 10 ^ 13, 1]).map (fun p => p.f0 0) =
      .ok 0 ∧ (0 : ℝ) ≠ (1 : ℝ) / 10 ^ 13 := by
  constructor
  · have hsum : |(1 : ℝ) / 10 ^ 13| + |(-(1 / 10 ^ 13) + 1 : ℝ)| + |(0 : ℝ)| +
        |(0 : ℝ)| + |(0 : ℝ)| = 1 := by
      rw [abs_of_pos (by norm_num), abs_of_pos (by norm_num)]
      norm_num
    have ha : ZeroSmall ((1 : ℝ) / 10 ^ 13) 1 POLY_EPSILON = 0 := by
      apply ZeroSmall_of_le
      rw [abs_of_pos (by norm_num), POLY_EPSILON]
      norm_num
    simp only [BezierPolynomial.Set, BezierPolynomial.SetNoSnap, Except.map,
      BezierPolynomial.snapSmall, BezierPolynomial.f0, hsum, ha]
    norm_num
  · norm_num

/-- C1 (amended): for every valid order `n` in 1..4 and list of `n + 1`
control values, whenever the zero-snapping step of `Set` leaves the computed
coefficients unchanged (stated as: `Set` and the raw expansion `SetNoSnap`
return the same polynomial), the evaluation `f0 0` is the first control value
and `f0 1` is the last control value exactly. -/
theorem c1_boundary_interpolation (x : List ℝ) (p : BezierPolynomial)
    (hsnap : BezierPolynomial.Set x = .ok p)
    (hraw : BezierPolynomial.SetNoSnap x = .ok p) :
    x.head? = some (p.f0 0) ∧ x.getLast? = some (p.f0 1) := by
  rcases x with _ | ⟨x0, _ | ⟨x1, _ | ⟨x2, _ | ⟨x3, _ | ⟨x4, _ | ⟨x5, rest⟩⟩⟩⟩⟩⟩
  · exact absurd hraw (by simp [BezierPolynomial.SetNoSnap, errBadOrder])
  · exact absurd hraw (by simp [BezierPolynomial.SetNoSnap, errBadOrder])
  · obtain rfl : p = ⟨1, x0, -x0 + x1, 0, 0, 0⟩ := by
      simpa [BezierPolynomial.SetNoSnap] using hraw.symm
    constructor
    · simp [BezierPolynomial.f0]
    · simp only [BezierPolynomial.f0, List.getLast?]
      norm_num
  · obtain rfl : p = ⟨2, x0, -2 * x0 + 2 * x1, x0 - 2 * x1 + x2, 0, 0⟩ := by
      simpa [BezierPolynomial.SetNoSnap] using hraw.symm
    constructor
    · simp [BezierPolynomial.f0]
    · simp only [BezierPolynomial.f0, List.getLast?]
      norm_num
      ring
  · obtain rfl : p = ⟨3, x0, -3 * x0 + 3 * x1, 3 * x0 - 6 * x1 + 3 * x2,
        -x0 + 3 * x1 - 3 * x2 + x3, 0⟩ := by
      simpa [BezierPolynomial.SetNoSnap] using hraw.symm
    constructor
    · simp [BezierPolynomial.f0]
    · simp only [BezierPolynomial.f0, List.getLast?]
      norm_num
      ring
  · obtain rfl : p = ⟨4, x0, -4 * x0 + 4 * x1, 6 * x0 - 12 * x1 + 6 * x2,
        -4 * x0 + 12 * x1 - 12 * x2 + 4 * x3,
        x0 - 4 * x1 + 6 * x2 - 4 * x3 + x4⟩ := by
      simpa [BezierPolynomial.SetNoSnap] using hraw.symm
    constructor
    · simp [BezierPolynomial.f0]
    · simp only [BezierPolynomial.f0, List.getLast?]
      norm_num
      ring
  · exact absurd hraw (by simp [BezierPolynomial.SetNoSnap, errBadOrder])

/-- Polynomial used by the C1 witness: `Set [0, 1]` with no coefficient
snapped (the computed coefficients are 0 and 1). -/
def c1Poly : BezierPolynomial := ⟨1, 0, 1, 0, 0, 0⟩

/-- C1 witness: at the concrete control values `[0, 1]` the hypotheses of the
amended C1 theorem hold and the boundary values are the first and last control
values. -/
theorem c1_boundary_interpolation_witness :
    BezierPolynomial.Set [(0 : ℝ), 1] = .ok c1Poly ∧
    BezierPolynomial.SetNoSnap [(0 : ℝ), 1] = .ok c1Poly ∧
    ([(0 : ℝ), 1].head? = some (c1Poly.f0 0) ∧
      [(0 : ℝ), 1].getLast? = some (c1Poly.f0 1)) := by
  have hraw : BezierPolynomial.SetNoSnap [(0 : ℝ), 1] = .ok c1Poly := by
    simp only [BezierPolynomial.SetNoSnap, c1Poly]
    norm_num
  have hsnap : BezierPolynomial.Set [(0 : ℝ), 1] = .ok c1Poly := by
    rw [BezierPolynomial.Set, hraw]
    simp only [Except.map, BezierPolynomial.snapSmall, c1Poly]
    have h0 : ZeroSmall (0 : ℝ) 1 POLY_EPSILON = 0 :=
      ZeroSmall_zero 1 (by norm_num)
    have h1 : ZeroSmall (1 : ℝ) 1 POLY_EPSILON = 1 := by
      apply ZeroSmall_of_not_le
      rw [POLY_EPSILON]
      norm_num
    simp [h0, h1]
  exact ⟨hsnap, hraw, c1_boundary_interpolation [(0 : ℝ), 1] c1Poly hsnap hraw⟩

/-- The 2D vector type of the sdf package (external to src/): a pair of
float64 coordinates, modelled as reals. -/
structure V2 where
  X : ℝ
  Y : ℝ

/-- Modelled from the spec: componentwise vector addition `V2.Add` (the 2D
vector primitive type and its arithmetic are external collaborators). -/
def v2add (a b : V2) : V2 := ⟨a.X + b.X, a.Y + b.Y⟩

/-- Modelled from the spec: `V2.Equals` with a tolerance; spec section 4.4
closure uses it with tolerance 0, "coordinate-equal (exact equality, no
tolerance)". -/
def v2Equals (a b : V2) (tolerance : ℝ) : Prop :=
  |a.X - b.X| ≤ tolerance ∧ |a.Y - b.Y| ≤ tolerance

/-- Modelled from the spec: `polarToCartesian(angle, radius)` (spec section
4.4); `PolarToXY r theta` is the point at radius `r` and angle `theta`. -/
noncomputable def PolarToXY (r theta : ℝ) : V2 :=
  ⟨r * Real.cos theta, r * Real.sin theta⟩

/-- Modelled from geometry, used only to state distances: Euclidean distance
between two points. -/
noncomputable def distV2 (a b : V2) : ℝ :=
  Real.sqrt ((a.X - b.X) ^ 2 + (a.Y - b.Y) ^ 2)

/-- src/sdf/bezier.go lines 175-180: vertex tag. -/
inductive BezierVertexType where
  | ENDPOINT
  | MIDPOINT
deriving DecidableEq

export BezierVertexType (ENDPOINT MIDPOINT)

/-- src/sdf/bezier.go lines 182-187: a tagged vertex with polar-form forward
and reverse handles (`X` is the radius, `Y` the angle; radius 0 means no
handle, the Go zero value). -/
structure BezierVertex where
  vtype : BezierVertexType
  vertex : V2
  handle_fwd : V2
  handle_rev : V2

/-- src/sdf/bezier.go lines 189-192: a curve is a closed flag plus a vertex
list. -/
structure Bezier where
  closed : Bool
  vlist : List BezierVertex

/-- Panic message of `HandleFwd` / `HandleRev` on a midpoint (src/sdf/bezier.go
lines 320 and 329). -/
def errMidHandle : String := "can't place a handle on a curve midpoint"

/-- src/sdf/bezier.go lines 318-324: `HandleFwd` aborts on a `MIDPOINT` vertex
and otherwise stores the forward handle as `V2{Abs(r), theta}` (radius made
nonnegative, then the angle). -/
noncomputable def BezierVertex.HandleFwd (v : BezierVertex) (theta r : ℝ) :
    Except String BezierVertex :=
  if v.vtype = MIDPOINT then .error errMidHandle
  else .ok { v with handle_fwd := ⟨|r|, theta⟩ }

/-- src/sdf/bezier.go lines 327-333: `HandleRev`, symmetric to `HandleFwd`. -/
noncomputable def BezierVertex.HandleRev (v : BezierVertex) (theta r : ℝ) :
    Except String BezierVertex :=
  if v.vtype = MIDPOINT then .error errMidHandle
  else .ok { v with handle_rev := ⟨|r|, theta⟩ }

/-- src/sdf/bezier.go lines 336-340: `Handle` sets the forward handle at
`theta` and the reverse handle at `theta + PI`. -/
noncomputable def BezierVertex.Handle (v : BezierVertex) (theta fwd rev : ℝ) :
    Except String BezierVertex := do
  let v1 ← v.HandleFwd theta fwd
  v1.HandleRev (theta + Real.pi) rev

/-- src/sdf/bezier.go lines 200-220: the loop body of `Bezier.handles` for one
vertex: a `MIDPOINT` control vertex is synthesized before the vertex for a
non-zero-radius reverse handle and after it for a non-zero-radius forward
handle; the vertex itself is kept with its handles cleared. -/
noncomputable def expandVertex (v : BezierVertex) : List BezierVertex :=
  (if v.handle_rev.X ≠ 0 then
    [⟨MIDPOINT, v2add (PolarToXY v.handle_rev.X v.handle_rev.Y) v.vertex,
      ⟨0, 0⟩, ⟨0, 0⟩⟩]
  else []) ++
  [{ v with handle_fwd := ⟨0, 0⟩, handle_rev := ⟨0, 0⟩ }] ++
  (if v.handle_fwd.X ≠ 0 then
    [⟨MIDPOINT, v2add (PolarToXY v.handle_fwd.X v.handle_fwd.Y) v.vertex,
      ⟨0, 0⟩, ⟨0, 0⟩⟩]
  else [])

/-- src/sdf/bezier.go lines 222-228: index of the first `ENDPOINT` control
vertex; when none exists the Go loop variable is left at the last index. -/
def rotIdx (l : List BezierVertex) : ℕ :=
  match l.findIdx? (fun v => v.vtype == ENDPOINT) with
  | some i => i
  | none => l.length - 1

/-- src/sdf/bezier.go lines 197-235: `Bezier.handles` expands every vertex's
handles into control midpoints and then moves any leading midpoints to the end
of the list (`vlist[i:] ++ vlist[:i]`). -/
noncomputable def Bezier.handles (b : Bezier) : Bezier :=
  let vlist := b.vlist.flatMap expandVertex
  { b with vlist := vlist.drop (rotIdx vlist) ++ vlist.take (rotIdx vlist) }

/-- C9: `HandleFwd` and `HandleRev` abort with the invalid-operation message
on a `MIDPOINT` vertex (the vertex is a plain value here, so nothing is
modified on the error path), and both succeed on an `ENDPOINT` vertex. -/
theorem c9_handle_midpoint_rejected (v : BezierVertex) (theta r : ℝ) :
    (v.vtype = MIDPOINT →
      v.HandleFwd theta r = .error errMidHandle ∧
      v.HandleRev theta r = .error errMidHandle) ∧
    (v.vtype = ENDPOINT →
      v.HandleFwd theta r = .ok { v with handle_fwd := ⟨|r|, theta⟩ } ∧
      v.HandleRev theta r = .ok { v with handle_rev := ⟨|r|, theta⟩ }) := by
  constructor
  · intro h
    constructor <;> simp [BezierVertex.HandleFwd, BezierVertex.HandleRev, h]
  · intro h
    constructor <;> simp [BezierVertex.HandleFwd, BezierVertex.HandleRev, h]

/-- Concrete midpoint vertex used by witnesses. -/
def vMid : BezierVertex := ⟨MIDPOINT, ⟨1, 2⟩, ⟨0, 0⟩, ⟨0, 0⟩⟩

/-- Concrete endpoint vertex used by witnesses. -/
def vEnd : BezierVertex := ⟨ENDPOINT, ⟨3, 4⟩, ⟨0, 0⟩, ⟨0, 0⟩⟩

/-- C9 witness: the theorem applied to a concrete midpoint vertex and a
concrete endpoint vertex. -/
theorem c9_handle_midpoint_rejected_witness :
    (vMid.HandleFwd 0 1 = .error errMidHandle ∧
      vMid.HandleRev 0 1 = .error errMidHandle) ∧
    (vEnd.HandleFwd 0 1 = .ok { vEnd with handle_fwd := ⟨|(1 : ℝ)|, 0⟩ } ∧
      vEnd.HandleRev 0 1 = .ok { vEnd with handle_rev := ⟨|(1 : ℝ)|, 0⟩ }) :=
  ⟨(c9_handle_midpoint_rejected vMid 0 1).1 rfl,
    (c9_handle_midpoint_rejected vEnd 0 1).2 rfl⟩

/-- C10: on an endpoint vertex `HandleFwd` stores the absolute value of the
radius (so a negative radius behaves exactly like its positive counterpart,
for `HandleRev` too), and a radius of exactly 0 leaves the stored radius 0, so
handle expansion synthesizes no midpoint for it. -/
theorem c10_abs_radius (v : BezierVertex) (theta r : ℝ) (h : v.vtype = ENDPOINT) :
    v.HandleFwd theta r = .ok { v with handle_fwd := ⟨|r|, theta⟩ } ∧
    v.HandleFwd theta (-r) = v.HandleFwd theta r ∧
    v.HandleRev theta (-r) = v.HandleRev theta r ∧
    (v.handle_rev.X = 0 → ∀ w, v.HandleFwd theta 0 = .ok w →
      expandVertex w = [{ w with handle_fwd := ⟨0, 0⟩, handle_rev := ⟨0, 0⟩ }]) := by
  refine ⟨by simp [BezierVertex.HandleFwd, h], ?_, ?_, ?_⟩
  · simp [BezierVertex.HandleFwd, h, abs_neg]
  · simp [BezierVertex.HandleRev, h, abs_neg]
  · intro hrev w hw
    rw [BezierVertex.HandleFwd, if_neg (by simp [h])] at hw
    obtain rfl : ({ v with handle_fwd := ⟨|(0 : ℝ)|, theta⟩ } : BezierVertex) = w :=
      by injection hw
    simp [expandVertex, hrev]

/-- C10 witness: the theorem applied to the concrete endpoint vertex `vEnd`
with angle 0 and radius 2. -/
theorem c10_abs_radius_witness :
    vEnd.HandleFwd 0 2 = .ok { vEnd with handle_fwd := ⟨|(2 : ℝ)|, 0⟩ } ∧
    vEnd.HandleFwd 0 (-2) = vEnd.HandleFwd 0 2 ∧
    vEnd.HandleRev 0 (-2) = vEnd.HandleRev 0 2 ∧
    (vEnd.handle_rev.X = 0 → ∀ w, vEnd.HandleFwd 0 0 = .ok w →
      expandVertex w = [{ w with handle_fwd := ⟨0, 0⟩, handle_rev := ⟨0, 0⟩ }]) :=
  c10_abs_radius vEnd 0 2 rfl

/-- Helper: bind on a successful `Except` computation reduces to the
continuation. -/
theorem except_ok_bind {α β : Type} (a : α) (f : α → Except String β) :
    (do let x ← Except.ok a; f x) = f a := rfl

/-- Endpoint vertex used by the C8 counterexample. -/
def c8Vertex : BezierVertex := ⟨ENDPOINT, ⟨1, 2⟩, ⟨0, 0⟩, ⟨0, 0⟩⟩

/-- Vertex produced by `c8Vertex.Handle 0 0 0` (radius 0 on both handles). -/
noncomputable def c8ZeroW : BezierVertex :=
  ⟨ENDPOINT, ⟨1, 2⟩, ⟨|(0 : ℝ)|, 0⟩, ⟨|(0 : ℝ)|, 0 + Real.pi⟩⟩

/-- C8 counterexample: with radius `r = 0` (the claim quantifies over every
radius), `Handle(angle, 0, 0)` stores radius 0 on both handles and handle
expansion synthesizes no `MIDPOINT` vertex at all, not two. -/
theorem c8_counterexample :
    c8Vertex.Handle 0 0 0 = .ok c8ZeroW ∧
    (expandVertex c8ZeroW).countP (fun x => x.vtype == MIDPOINT) = 0 := by
  constructor
  · simp only [BezierVertex.Handle, BezierVertex.HandleFwd, BezierVertex.HandleRev,
      c8Vertex, c8ZeroW]
    rfl
  · simp [expandVertex, c8ZeroW]

/-- C8 (amended): for every endpoint position, angle and radius `r > 0`
(radius 0 sets no handle at all, see the counterexample), `Handle(angle, r, r)`
followed by handle expansion yields exactly two synthesized `MIDPOINT`
vertices, one immediately before and one immediately after the (cleared)
endpoint; the one after sits at polar offset `(r, angle)`, the one before at
`(r, angle + pi)`, both at Euclidean distance `r` from the endpoint and on
exactly opposite sides of it. -/
theorem c8_handle_symmetry (p : V2) (theta r : ℝ) (hr : 0 < r)
    (w : BezierVertex)
    (hw : BezierVertex.Handle ⟨ENDPOINT, p, ⟨0, 0⟩, ⟨0, 0⟩⟩ theta r r = .ok w) :
    expandVertex w =
      [⟨MIDPOINT, v2add (PolarToXY r (theta + Real.pi)) p, ⟨0, 0⟩, ⟨0, 0⟩⟩,
        ⟨ENDPOINT, p, ⟨0, 0⟩, ⟨0, 0⟩⟩,
        ⟨MIDPOINT, v2add (PolarToXY r theta) p, ⟨0, 0⟩, ⟨0, 0⟩⟩] ∧
    distV2 (v2add (PolarToXY r theta) p) p = r ∧
    distV2 (v2add (PolarToXY r (theta + Real.pi)) p) p = r ∧
    (PolarToXY r (theta + Real.pi)).X = -(PolarToXY r theta).X ∧
    (PolarToXY r (theta + Real.pi)).Y = -(PolarToXY r theta).Y := by
  have habs : |r| = r := abs_of_pos hr
  have hne : r ≠ 0 := ne_of_gt hr
  obtain rfl :
      BezierVertex.mk ENDPOINT p ⟨(|r|), theta⟩ ⟨(|r|), theta + Real.pi⟩ = w := by
    rw [BezierVertex.Handle, BezierVertex.HandleFwd, if_neg (by simp)] at hw
    rw [except_ok_bind] at hw
    rw [BezierVertex.HandleRev, if_neg (by simp)] at hw
    injection hw
  have hdist : ∀ s : ℝ, distV2 (v2add (PolarToXY r s) p) p = r := by
    intro s
    have hsq : (r * Real.cos s) ^ 2 + (r * Real.sin s) ^ 2 = r ^ 2 := by
      rw [mul_pow, mul_pow, ← mul_add, Real.cos_sq_add_sin_sq, mul_one]
    simp only [distV2, v2add, PolarToXY]
    rw [show r * Real.cos s + p.X - p.X = r * Real.cos s by ring,
      show r * Real.sin s + p.Y - p.Y = r * Real.sin s by ring, hsq,
      Real.sqrt_sq_eq_abs, habs]
  refine ⟨?_, hdist theta, hdist (theta + Real.pi), ?_, ?_⟩
  · simp only [expandVertex, habs]
    rw [if_pos hne, if_pos hne]
    rfl
  · simp [PolarToXY, Real.cos_add_pi]
  · simp [PolarToXY, Real.sin_add_pi]

/-- Vertex produced by `Handle 0 1 1` on the endpoint at the origin; used by
the C8 witness. -/
noncomputable def c8WitW : BezierVertex :=
  ⟨ENDPOINT, ⟨0, 0⟩, ⟨|(1 : ℝ)|, 0⟩, ⟨|(1 : ℝ)|, 0 + Real.pi⟩⟩

/-- C8 witness: the amended theorem applied at the origin endpoint with angle
0 and radius 1. -/
theorem c8_handle_symmetry_witness :
    (0 : ℝ) < 1 ∧
    BezierVertex.Handle ⟨ENDPOINT, ⟨0, 0⟩, ⟨0, 0⟩, ⟨0, 0⟩⟩ 0 1 1 = .ok c8WitW ∧
    (expandVertex c8WitW =
      [⟨MIDPOINT, v2add (PolarToXY 1 (0 + Real.pi)) ⟨0, 0⟩, ⟨0, 0⟩, ⟨0, 0⟩⟩,
        ⟨ENDPOINT, ⟨0, 0⟩, ⟨0, 0⟩, ⟨0, 0⟩⟩,
        ⟨MIDPOINT, v2add (PolarToXY 1 0) ⟨0, 0⟩, ⟨0, 0⟩, ⟨0, 0⟩⟩] ∧
      distV2 (v2add (PolarToXY 1 0) ⟨0, 0⟩) ⟨0, 0⟩ = 1 ∧
      distV2 (v2add (PolarToXY 1 (0 + Real.pi)) ⟨0, 0⟩) ⟨0, 0⟩ = 1 ∧
      (PolarToXY 1 (0 + Real.pi)).X = -(PolarToXY 1 0).X ∧
      (PolarToXY 1 (0 + Real.pi)).Y = -(PolarToXY 1 0).Y) := by
  have hw : BezierVertex.Handle ⟨ENDPOINT, ⟨0, 0⟩, ⟨0, 0⟩, ⟨0, 0⟩⟩ 0 1 1 =
      .ok c8WitW := by
    simp only [BezierVertex.Handle, BezierVertex.HandleFwd, BezierVertex.HandleRev,
      c8WitW]
    rfl
  exact ⟨by norm_num, hw,
    c8_handle_symmetry ⟨0, 0⟩ 0 1 (by norm_num) c8WitW hw⟩

/-- Go runtime abort when `closure` indexes `vlist[0]` on an empty list. -/
def errIndex : String := "index out of range"

/-- Panic message of `closure` when the first control vertex is not an
endpoint (src/sdf/bezier.go line 246). -/
def errClosureFirst : String := "first control vertex should be an endpoint"

/-- Panic message of `validate` for fewer than two control vertices
(src/sdf/bezier.go line 267). -/
def errTwoPoints : String := "bezier curve must have at least two points"

/-- Panic message of `validate` when the curve does not start with an
endpoint (src/sdf/bezier.go line 270). -/
def errStartEndpoint : String := "bezier curve must start with an endpoint"

/-- Panic message of `validate` when a non-closed curve does not end with an
endpoint (src/sdf/bezier.go line 273). -/
def errEndEndpoint : String := "non-closed bezier curve must end with an endpoint"

/-- src/sdf/bezier.go lines 238-260: `Bezier.closure`. A non-closed curve is
returned unchanged. For a closed curve the first vertex must be an endpoint;
if the last vertex is an endpoint not coordinate-equal (tolerance 0) to the
first, or is a midpoint, a copy of the first vertex is appended. The vertex
tag has exactly two values, so the Go `else if MIDPOINT` arm is the if-else
branch here and the final `bad vertex type` arm is unreachable. -/
noncomputable def Bezier.closure (b : Bezier) : Except String Bezier :=
  if b.closed = true then
    match b.vlist with
    | [] => .error errIndex
    | v :: rest =>
      if v.vtype = ENDPOINT then
        if ((v :: rest).getLast (List.cons_ne_nil v rest)).vtype = ENDPOINT then
          if v2Equals ((v :: rest).getLast (List.cons_ne_nil v rest)).vertex
              v.vertex 0 then .ok b
          else .ok { b with vlist := b.vlist ++ [v] }
        else .ok { b with vlist := b.vlist ++ [v] }
      else .error errClosureFirst
  else .ok b

/-- src/sdf/bezier.go lines 263-275: `Bezier.validate` checks that at least
two control vertices remain, that the first is an endpoint, and that a
non-closed curve ends with an endpoint. -/
def Bezier.validate (b : Bezier) : Except String Unit :=
  match b.vlist with
  | [] => .error errTwoPoints
  | v :: rest =>
    if (v :: rest).length < 2 then .error errTwoPoints
    else if v.vtype ≠ ENDPOINT then .error errStartEndpoint
    else if ¬b.closed = true ∧
        ((v :: rest).getLast (List.cons_ne_nil v rest)).vtype ≠ ENDPOINT then
      .error errEndEndpoint
    else .ok ()

/-- src/sdf/bezier.go lines 278-282: the fixups pipeline `handles` then
`closure` then `validate`, run before flattening. -/
noncomputable def Bezier.fixups (b : Bezier) : Except String Bezier := do
  let b2 ← b.handles.closure
  let _ ← b2.validate
  .ok b2

/-- C4: closure leaves a non-closed curve unchanged; for a closed curve whose
vertex list starts with an endpoint, the list is unchanged exactly when the
last vertex is an endpoint coordinate-equal (tolerance 0) to the first, and
otherwise a copy of the first vertex is appended (in particular always when
the last vertex is a midpoint). -/
theorem c4_closure_behaviour (b : Bezier) :
    (b.closed = false → b.closure = .ok b) ∧
    (∀ v rest, b.closed = true → b.vlist = v :: rest → v.vtype = ENDPOINT →
      b.closure = .ok { b with vlist :=
        if (((v :: rest).getLast (List.cons_ne_nil v rest)).vtype = ENDPOINT ∧
            v2Equals ((v :: rest).getLast (List.cons_ne_nil v rest)).vertex
              v.vertex 0)
        then b.vlist else b.vlist ++ [v] }) := by
  constructor
  · intro h
    simp [Bezier.closure, h]
  · intro v rest hc hl hv
    obtain ⟨bc, bl⟩ := b
    simp only at hc hl
    subst hc hl
    by_cases h1 : ((v :: rest).getLast (List.cons_ne_nil v rest)).vtype = ENDPOINT
    · by_cases h2 : v2Equals ((v :: rest).getLast (List.cons_ne_nil v rest)).vertex
          v.vertex 0
      · simp [Bezier.closure, hv, h1, h2]
      · simp [Bezier.closure, hv, h1, h2]
    · simp [Bezier.closure, hv, h1]

/-- First vertex of the C4 witness curve. -/
def c4V0 : BezierVertex := ⟨ENDPOINT, ⟨0, 0⟩, ⟨0, 0⟩, ⟨0, 0⟩⟩

/-- Last vertex of the C4 witness curve (an endpoint at different
coordinates). -/
def c4V1 : BezierVertex := ⟨ENDPOINT, ⟨1, 1⟩, ⟨0, 0⟩, ⟨0, 0⟩⟩

/-- Closed two-endpoint curve used by the C4 witness. -/
def c4B : Bezier := ⟨true, [c4V0, c4V1]⟩

/-- C4 witness: the closure theorem applied to a concrete closed curve whose
endpoints differ. -/
theorem c4_closure_behaviour_witness :
    c4B.closure = .ok { c4B with vlist :=
      if (((c4V0 :: [c4V1]).getLast (List.cons_ne_nil c4V0 [c4V1])).vtype = ENDPOINT ∧
          v2Equals ((c4V0 :: [c4V1]).getLast (List.cons_ne_nil c4V0 [c4V1])).vertex
            c4V0.vertex 0)
      then c4B.vlist else c4B.vlist ++ [c4V0] } :=
  (c4_closure_behaviour c4B).2 c4V0 [c4V1] rfl rfl rfl

/-- Helper: bind on a failed `Except` computation propagates the error. -/
theorem except_error_bind {α β : Type} (e : String) (f : α → Except String β) :
    (do let x ← (Except.error e : Except String α); f x) = .error e := rfl

/-- Helper: `v2Equals` with tolerance 0 holds between a point and itself. -/
theorem v2Equals_refl (a : V2) : v2Equals a a 0 := by
  simp [v2Equals]

/-- Helper: handle expansion does not touch the closed flag. -/
theorem handles_closed (b : Bezier) : b.handles.closed = b.closed := rfl

/-- Helper: `validate` fails whenever fewer than two control vertices remain,
or the first vertex is not an endpoint, or the curve is open and its last
vertex is not an endpoint. -/
theorem validate_isOk_false (b : Bezier)
    (h : b.vlist.length < 2 ∨
      (∃ v rest, b.vlist = v :: rest ∧ v.vtype ≠ ENDPOINT) ∨
      (b.closed = false ∧
        ∃ v, b.vlist.getLast? = some v ∧ v.vtype ≠ ENDPOINT)) :
    (b.validate).isOk = false := by
  obtain ⟨bc, bl⟩ := b
  rcases hbl : bl with _ | ⟨v, rest⟩
  · subst hbl
    rfl
  · subst hbl
    rcases h with h1 | h2 | h3
    · simp only at h1
      simp only [Bezier.validate]
      rw [if_pos h1]
      rfl
    · obtain ⟨v', rest', heq, hne⟩ := h2
      simp only at heq
      obtain ⟨rfl, rfl⟩ : v = v' ∧ rest = rest' := by
        constructor <;> injection heq
      simp only [Bezier.validate]
      by_cases h1 : (v :: rest).length < 2
      · rw [if_pos h1]
        rfl
      · rw [if_neg h1, if_pos hne]
        rfl
    · obtain ⟨hcl, v', hlast, hne⟩ := h3
      simp only at hcl hlast
      have hv' : v' = (v :: rest).getLast (List.cons_ne_nil v rest) := by
        rw [List.getLast?_eq_getLast _ (List.cons_ne_nil v rest)] at hlast
        exact (Option.some.inj hlast).symm
      simp only [Bezier.validate]
      by_cases h1 : (v :: rest).length < 2
      · rw [if_pos h1]
        rfl
      · rw [if_neg h1]
        by_cases h2 : v.vtype ≠ ENDPOINT
        · rw [if_pos h2]
          rfl
        · rw [if_neg h2, if_pos ⟨by simp [hcl], by rw [← hv']; exact hne⟩]
          rfl

/-- Helper: when closure leaves the handle-expanded curve unchanged and
validation fails on it, the whole fixups pipeline fails. -/
theorem fixups_isOk_false_of (b : Bezier)
    (hcl : b.handles.closure = .ok b.handles)
    (hval : (b.handles.validate).isOk = false) : (b.fixups).isOk = false := by
  cases hve : b.handles.validate with
  | error e =>
    rw [Bezier.fixups, hcl, except_ok_bind, hve, except_error_bind]
    rfl
  | ok u =>
    rw [hve] at hval
    simp [Except.isOk, Except.toBool] at hval

/-- C5: flattening fails for every curve (closed or open) whose
handle-expanded vertex list has fewer than 2 vertices, or starts with a
non-endpoint, or is open and ends with a non-endpoint; the failure surfaces as
the validation error, except for a closed curve starting with a non-endpoint
where the closure step aborts first with its own message. -/
theorem c5_invalid_curve_rejected (b : Bezier)
    (h : b.handles.vlist.length < 2 ∨
      (∃ v rest, b.handles.vlist = v :: rest ∧ v.vtype ≠ ENDPOINT) ∨
      (b.closed = false ∧
        ∃ v, b.handles.vlist.getLast? = some v ∧ v.vtype ≠ ENDPOINT)) :
    (b.fixups).isOk = false := by
  cases hc : b.closed with
  | false =>
    have hcl : b.handles.closure = .ok b.handles := by
      rw [Bezier.closure, if_neg]
      rw [handles_closed, hc]
      simp
    refine fixups_isOk_false_of b hcl (validate_isOk_false b.handles ?_)
    rcases h with h1 | h2 | h3
    · exact Or.inl h1
    · exact Or.inr (Or.inl h2)
    · exact Or.inr (Or.inr ⟨by rw [handles_closed, hc], h3.2⟩)
  | true =>
    rcases h with h1 | h2 | h3
    · rcases hl : b.handles.vlist with _ | ⟨v, rest⟩
      · have hcl : b.handles.closure = .error errIndex := by
          rw [Bezier.closure, if_pos (by rw [handles_closed, hc]), hl]
        rw [Bezier.fixups, hcl, except_error_bind]
        rfl
      · rw [hl] at h1
        have hrest : rest = [] := by
          cases rest with
          | nil => rfl
          | cons a t =>
            simp at h1
            omega
        subst hrest
        by_cases hv : v.vtype = ENDPOINT
        · have hcl : b.handles.closure = .ok b.handles := by
            rw [Bezier.closure, if_pos (by rw [handles_closed, hc]), hl]
            simp [hv, v2Equals_refl]
          refine fixups_isOk_false_of b hcl (validate_isOk_false b.handles (Or.inl ?_))
          rw [hl]
          simp
        · have hcl : b.handles.closure = .error errClosureFirst := by
            rw [Bezier.closure, if_pos (by rw [handles_closed, hc]), hl]
            simp [hv]
          rw [Bezier.fixups, hcl, except_error_bind]
          rfl
    · obtain ⟨v, rest, hl, hv⟩ := h2
      have hcl : b.handles.closure = .error errClosureFirst := by
        rw [Bezier.closure, if_pos (by rw [handles_closed, hc]), hl]
        simp [hv]
      rw [Bezier.fixups, hcl, except_error_bind]
      rfl
    · exact absurd h3.1 (by simp [hc])

/-- Open curve whose only vertex is a midpoint, used by the C5 witness. -/
def c5B : Bezier := ⟨false, [⟨MIDPOINT, ⟨0, 0⟩, ⟨0, 0⟩, ⟨0, 0⟩⟩]⟩

/-- C5 witness: the single-midpoint open curve satisfies the fewer-than-two
vertices condition after handle expansion, and flattening fixups fail on it. -/
theorem c5_invalid_curve_rejected_witness :
    (c5B.handles.vlist.length < 2 ∨
      (∃ v rest, c5B.handles.vlist = v :: rest ∧ v.vtype ≠ ENDPOINT) ∨
      (c5B.closed = false ∧
        ∃ v, c5B.handles.vlist.getLast? = some v ∧ v.vtype ≠ ENDPOINT)) ∧
    (c5B.fixups).isOk = false := by
  have h : c5B.handles.vlist.length < 2 ∨
      (∃ v rest, c5B.handles.vlist = v :: rest ∧ v.vtype ≠ ENDPOINT) ∨
      (c5B.closed = false ∧
        ∃ v, c5B.handles.vlist.getLast? = some v ∧ v.vtype ≠ ENDPOINT) := by
    left
    simp [Bezier.handles, expandVertex, rotIdx, c5B]
  exact ⟨h, c5_invalid_curve_rejected c5B h⟩

/-- src/sdf/bezier.go lines 127-129: a spline is a pair of polynomials, one
per axis. -/
structure BezierSpline where
  px : BezierPolynomial
  py : BezierPolynomial

/-- src/sdf/bezier.go lines 153-156: the order of the spline is the order of
its x polynomial. -/
def BezierSpline.order (s : BezierSpline) : ℕ := s.px.n

/-- src/sdf/bezier.go lines 158-171: `NewBezierSpline` builds the x and y
polynomials from the coordinate sequences of the control points. -/
noncomputable def NewBezierSpline (p : List V2) : Except String BezierSpline := do
  let px ← BezierPolynomial.Set (p.map V2.X)
  let py ← BezierPolynomial.Set (p.map V2.Y)
  .ok ⟨px, py⟩

/-- Panic message of the segmentation state machine on an unexpected vertex
tag (src/sdf/bezier.go line 363). -/
def errBadVertexType : String := "bad vertex type"

/-- src/sdf/bezier.go lines 365-386: the `MIDPOINT` state of the segmentation
loop in `Bezier.Polygon`. `acc` holds the accumulated spline points (the run's
starting endpoint followed by the midpoints seen so far). A midpoint is
accumulated; an endpoint finalizes the spline and, unless it is the last
vertex, starts the next run at that endpoint without advancing; running out of
vertices while accumulating leaves the loop with the partial run discarded,
exactly as the Go `for i < n` loop does. -/
noncomputable def segmentFrom (acc : List V2) :
    List BezierVertex → Except String (List BezierSpline)
  | [] => .ok []
  | v :: rest =>
    if v.vtype = MIDPOINT then segmentFrom (acc ++ [v.vertex]) rest
    else do
      let s ← NewBezierSpline (acc ++ [v.vertex])
      if rest.isEmpty then .ok [s]
      else do
        let ss ← segmentFrom [v.vertex] rest
        .ok (s :: ss)

/-- src/sdf/bezier.go lines 350-387: the segmentation state machine of
`Bezier.Polygon`, starting in the `ENDPOINT` state: the first vertex must be
an endpoint (else the Go code aborts with a bad-vertex-type message), and the
rest is processed by `segmentFrom`. -/
noncomputable def segmentGo : List BezierVertex → Except String (List BezierSpline)
  | [] => .ok []
  | v :: rest =>
    if v.vtype = ENDPOINT then segmentFrom [v.vertex] rest
    else .error errBadVertexType

/-- Lengths of the runs of consecutive `MIDPOINT` vertices that are closed
off by an `ENDPOINT`; `c` counts the midpoints of the current run. A trailing
run not terminated by an endpoint is not emitted (the segmentation loop
discards such a partial run). -/
def midRunLensAux (c : ℕ) : List BezierVertex → List ℕ
  | [] => []
  | v :: rest =>
    if v.vtype = MIDPOINT then midRunLensAux (c + 1) rest
    else c :: midRunLensAux 0 rest

/-- Lengths of the midpoint runs of a vertex list. -/
def midRunLens (l : List BezierVertex) : List ℕ := midRunLensAux 0 l

/-- Helper: `Set` succeeds exactly on control lists of 2 to 5 values. -/
theorem Set_isOk (x : List ℝ) :
    (BezierPolynomial.Set x).isOk = (decide (2 ≤ x.length) && decide (x.length ≤ 5)) := by
  rcases x with _ | ⟨x0, _ | ⟨x1, _ | ⟨x2, _ | ⟨x3, _ | ⟨x4, _ | ⟨x5, rest⟩⟩⟩⟩⟩⟩ <;>
    simp [BezierPolynomial.Set, BezierPolynomial.SetNoSnap, Except.map, Except.isOk,
      Except.toBool]

/-- Helper: `NewBezierSpline` succeeds exactly on point lists of 2 to 5
points. -/
theorem NewBezierSpline_isOk (p : List V2) :
    (NewBezierSpline p).isOk = (decide (2 ≤ p.length) && decide (p.length ≤ 5)) := by
  rw [NewBezierSpline]
  cases h1 : BezierPolynomial.Set (p.map V2.X) with
  | error e =>
    have := Set_isOk (p.map V2.X)
    rw [h1] at this
    simp only [List.length_map] at this
    rw [except_error_bind]
    exact this
  | ok px =>
    rw [except_ok_bind]
    cases h2 : BezierPolynomial.Set (p.map V2.Y) with
    | error e =>
      have := Set_isOk (p.map V2.Y)
      rw [h2] at this
      simp only [List.length_map] at this
      rw [except_error_bind]
      exact this
    | ok py =>
      have := Set_isOk (p.map V2.X)
      rw [h1] at this
      simp only [List.length_map] at this
      rw [except_ok_bind]
      exact this

/-- Helper: the segmentation loop from an accumulated run succeeds exactly
when every midpoint run it closes off has at most 3 midpoints (`acc` holds
the run's starting endpoint plus the midpoints seen so far, so the current
run already has `acc.length - 1` midpoints). -/
theorem segmentFrom_midruns (l : List BezierVertex) : ∀ acc : List V2, acc ≠ [] →
    (segmentFrom acc l).isOk =
      (midRunLensAux (acc.length - 1) l).all (fun r => r ≤ 3) := by
  induction l with
  | nil =>
    intro acc hacc
    rfl
  | cons v rest ih =>
    intro acc hacc
    have hlen1 : 1 ≤ acc.length := by
      rcases acc with _ | ⟨a, t⟩
      · exact absurd rfl hacc
      · simp
    by_cases hv : v.vtype = MIDPOINT
    · rw [segmentFrom, if_pos hv, midRunLensAux, if_pos hv,
        ih (acc ++ [v.vertex]) (by simp)]
      have harith : (acc ++ [v.vertex]).length - 1 = acc.length - 1 + 1 := by
        simp
        omega
      rw [harith]
    · rw [segmentFrom, if_neg hv, midRunLensAux, if_neg hv]
      have hsplit : (do
          let s ← NewBezierSpline (acc ++ [v.vertex])
          if rest.isEmpty then (.ok [s] : Except String (List BezierSpline))
          else do
            let ss ← segmentFrom [v.vertex] rest
            .ok (s :: ss)).isOk =
          ((NewBezierSpline (acc ++ [v.vertex])).isOk &&
            (segmentFrom [v.vertex] rest).isOk) := by
        cases hnb : NewBezierSpline (acc ++ [v.vertex]) with
        | error e =>
          rw [except_error_bind]
          rfl
        | ok s =>
          rw [except_ok_bind]
          cases rest with
          | nil => rfl
          | cons r rs =>
            rw [if_neg (by simp)]
            cases hsf : segmentFrom [v.vertex] (r :: rs) with
            | error e =>
              rw [except_error_bind]
              rfl
            | ok ss =>
              rw [except_ok_bind]
              rfl
      rw [hsplit, ih [v.vertex] (by simp), NewBezierSpline_isOk]
      simp only [List.length_append, List.length_singleton, List.length_cons,
        List.length_nil]
      have h2 : decide (2 ≤ acc.length + 1) = true := by
        simp only [decide_eq_true_eq]
        omega
      have h5 : decide (acc.length + 1 ≤ 5) = decide (acc.length - 1 ≤ 3) := by
        rw [decide_eq_decide]
        omega
      rw [h2, h5, Bool.true_and]
      simp [List.all_cons]

/-- C2: for every fixed-up vertex list (first and last vertex endpoints),
segmentation inside `Polygon` succeeds exactly when every run of consecutive
midpoints between two endpoints has length at most 3 (spline order at most 4);
a run of 4 or more midpoints makes the spline construction abort with the
malformed-curve (bad polynomial order) error. -/
theorem c2_mid_run_limit (v : BezierVertex) (rest : List BezierVertex)
    (hfirst : v.vtype = ENDPOINT)
    (_hlast : ((v :: rest).getLast (List.cons_ne_nil v rest)).vtype = ENDPOINT) :
    (segmentGo (v :: rest)).isOk =
      (midRunLens (v :: rest)).all (fun r => r ≤ 3) := by
  rw [segmentGo, if_pos hfirst, segmentFrom_midruns rest [v.vertex] (by simp)]
  rw [midRunLens, midRunLensAux, if_neg (by simp [hfirst])]
  simp

/-- First vertex of the C2 witness list. -/
def c2V0 : BezierVertex := ⟨ENDPOINT, ⟨0, 0⟩, ⟨0, 0⟩, ⟨0, 0⟩⟩

/-- Tail of the C2 witness list: four consecutive midpoints followed by an
endpoint, a malformed run of length 4. -/
def c2Rest : List BezierVertex :=
  [⟨MIDPOINT, ⟨1, 1⟩, ⟨0, 0⟩, ⟨0, 0⟩⟩, ⟨MIDPOINT, ⟨2, 2⟩, ⟨0, 0⟩, ⟨0, 0⟩⟩,
    ⟨MIDPOINT, ⟨3, 3⟩, ⟨0, 0⟩, ⟨0, 0⟩⟩, ⟨MIDPOINT, ⟨4, 4⟩, ⟨0, 0⟩, ⟨0, 0⟩⟩,
    ⟨ENDPOINT, ⟨5, 5⟩, ⟨0, 0⟩, ⟨0, 0⟩⟩]

/-- C2 witness: the theorem applied to the concrete endpoint-to-endpoint list
with a run of 4 consecutive midpoints. -/
theorem c2_mid_run_limit_witness :
    (segmentGo (c2V0 :: c2Rest)).isOk =
      (midRunLens (c2V0 :: c2Rest)).all (fun r => r ≤ 3) :=
  c2_mid_run_limit c2V0 c2Rest rfl rfl

/-- Modelled from the spec: `slopeAngle(t) returns atan2(py'(t), px'(t))`;
the standard library's `math.Atan2` is modelled as the argument of the complex
number `x + i y`. -/
noncomputable def atan2 (y x : ℝ) : ℝ := Complex.arg ⟨x, y⟩

/-- src/sdf/bezier.go lines 132-134: evaluate the spline point at `t`. -/
noncomputable def BezierSpline.f0 (s : BezierSpline) (t : ℝ) : V2 :=
  ⟨s.px.f0 t, s.py.f0 t⟩

/-- src/sdf/bezier.go lines 137-139: tangent direction of the curve at `t`. -/
noncomputable def BezierSpline.slope (s : BezierSpline) (t : ℝ) : ℝ :=
  atan2 (s.py.f1 t) (s.px.f1 t)

/-- src/sdf/bezier.go line 392: `dtmin = 1.0 / float64(k - 1)` with
`k = 1000`. -/
noncomputable def dtmin : ℝ := 1 / 999

/-- src/sdf/bezier.go line 393: the curvature threshold `epsilon = 0.1` of the
adaptive sampling loop. -/
noncomputable def sampleEpsilon : ℝ := 1 / 10

/-- src/sdf/bezier.go line 405: the slope change over one minimal step. -/
noncomputable def dtheta (s : BezierSpline) (t : ℝ) : ℝ :=
  |s.slope (t + dtmin) - s.slope t|

/-- src/sdf/bezier.go lines 406-410: the parameter advance of one loop
iteration, for a non-zero `dtheta`: a step enlarged by `epsilon / dtheta`
through low-curvature regions, the minimal step otherwise. -/
noncomputable def nextT (s : BezierSpline) (t : ℝ) : ℝ :=
  if dtheta s t < sampleEpsilon then t + dtmin * (sampleEpsilon / dtheta s t)
  else t + dtmin

/-- src/sdf/bezier.go lines 402-411: the adaptive sampling loop
`for t < 1.0`, with an explicit fuel so the recursion is structural. When
`dtheta` is exactly 0 the Go division `epsilon / dtheta` yields IEEE positive
infinity, `t` becomes infinite, and the guard fails on the next check; that
float-specific behaviour is modelled explicitly: the iteration emits its point
and the loop ends. The fuel-stability theorem below shows fuel 1000 saturates
(the loop always leaves through its guard within 999 iterations), so the fuel
is not a truncation of the source loop. -/
noncomputable def sampleLoop (s : BezierSpline) : ℕ → ℝ → List V2
  | 0, _ => []
  | fuel + 1, t =>
    if t < 1 then
      s.f0 t :: (if dtheta s t = 0 then [] else sampleLoop s fuel (nextT s t))
    else []

/-- src/sdf/bezier.go lines 395-414: rendering one spline: an order-1 spline
emits exactly its two end evaluations; any other order runs the adaptive
sampling loop from `t = 0` and then emits `f0 1` unconditionally. -/
noncomputable def renderSpline (s : BezierSpline) : List V2 :=
  if s.order = 1 then [s.f0 0, s.f0 1]
  else sampleLoop s 1000 0 ++ [s.f0 1]

/-- src/sdf/bezier.go lines 342-417: `Bezier.Polygon` runs the fixups, the
segmentation state machine, and renders every spline in curve order into the
output point sequence (the external `Polygon` container is an append-only
point list). -/
noncomputable def Bezier.Polygon (b : Bezier) : Except String (List V2) := do
  let b2 ← b.fixups
  let ss ← segmentGo b2.vlist
  .ok (ss.map renderSpline).flatten

/-- Helper: `dtmin` is positive. -/
theorem dtmin_pos : 0 < dtmin := by
  rw [dtmin]
  norm_num

/-- Helper: a non-zero `dtheta` is positive. -/
theorem dtheta_pos (s : BezierSpline) (t : ℝ) (h : dtheta s t ≠ 0) :
    0 < dtheta s t := by
  have h0 : 0 ≤ dtheta s t := by
    rw [dtheta]
    exact abs_nonneg _
  exact lt_of_le_of_ne h0 (Ne.symm h)

/-- Helper: when `dtheta` is non-zero, one iteration advances `t` by at least
`dtmin` (the enlarged step multiplies `dtmin` by `epsilon / dtheta > 1`). -/
theorem nextT_ge (s : BezierSpline) (t : ℝ) (h : dtheta s t ≠ 0) :
    t + dtmin ≤ nextT s t := by
  have hpos := dtheta_pos s t h
  rw [nextT]
  by_cases hlt : dtheta s t < sampleEpsilon
  · rw [if_pos hlt]
    have h1 : 1 ≤ sampleEpsilon / dtheta s t := by
      rw [le_div_iff₀ hpos, one_mul]
      exact le_of_lt hlt
    have h2 : dtmin ≤ dtmin * (sampleEpsilon / dtheta s t) := by
      calc dtmin = dtmin * 1 := by ring
      _ ≤ dtmin * (sampleEpsilon / dtheta s t) :=
        mul_le_mul_of_nonneg_left h1 (le_of_lt dtmin_pos)
    linarith
  · rw [if_neg hlt]

/-- Helper: the loop body does nothing once `t` has reached 1. -/
theorem sampleLoop_of_one_le (s : BezierSpline) (t : ℝ) (h : 1 ≤ t) :
    ∀ fuel : ℕ, sampleLoop s fuel t = [] := by
  intro fuel
  cases fuel with
  | zero => rfl
  | succ f =>
    rw [sampleLoop, if_neg (not_lt.mpr h)]

/-- Helper (termination): when `n` minimal steps cover the remaining distance
to 1, any two fuels of at least `n` run the loop identically — the loop
leaves through its guard, never through fuel exhaustion. -/
theorem sampleLoop_stable (n : ℕ) : ∀ (s : BezierSpline) (t : ℝ) (f1 f2 : ℕ),
    1 - t ≤ n * dtmin → n ≤ f1 → n ≤ f2 →
    sampleLoop s f1 t = sampleLoop s f2 t := by
  induction n with
  | zero =>
    intro s t f1 f2 hb _ _
    have h1 : 1 ≤ t := by
      simp only [Nat.cast_zero, zero_mul] at hb
      linarith
    rw [sampleLoop_of_one_le s t h1 f1, sampleLoop_of_one_le s t h1 f2]
  | succ n ih =>
    intro s t f1 f2 hb hf1 hf2
    by_cases ht : t < 1
    · obtain ⟨g1, rfl⟩ : ∃ g, f1 = g + 1 := ⟨f1 - 1, by omega⟩
      obtain ⟨g2, rfl⟩ : ∃ g, f2 = g + 1 := ⟨f2 - 1, by omega⟩
      rw [sampleLoop, sampleLoop, if_pos ht, if_pos ht]
      by_cases hd : dtheta s t = 0
      · rw [if_pos hd, if_pos hd]
      · rw [if_neg hd, if_neg hd]
        congr 1
        have hstep := nextT_ge s t hd
        apply ih
        · push_cast at hb ⊢
          linarith
        · omega
        · omega
    · push_neg at ht
      rw [sampleLoop_of_one_le s t ht, sampleLoop_of_one_le s t ht]

/-- Helper: the loop emits at most `fuel` points. -/
theorem sampleLoop_length_le (s : BezierSpline) :
    ∀ (fuel : ℕ) (t : ℝ), (sampleLoop s fuel t).length ≤ fuel := by
  intro fuel
  induction fuel with
  | zero =>
    intro t
    simp [sampleLoop]
  | succ f ih =>
    intro t
    rw [sampleLoop]
    by_cases ht : t < 1
    · rw [if_pos ht]
      by_cases hd : dtheta s t = 0
      · rw [if_pos hd]
        simp
      · rw [if_neg hd]
        simp only [List.length_cons]
        exact Nat.succ_le_succ (ih _)
    · rw [if_neg ht]
      simp

/-- Helper: with positive fuel and `t < 1`, the first emitted point is
`f0 t`. -/
theorem sampleLoop_head (s : BezierSpline) (fuel : ℕ) (t : ℝ) (ht : t < 1)
    (hf : 0 < fuel) : (sampleLoop s fuel t).head? = some (s.f0 t) := by
  obtain ⟨g, rfl⟩ : ∃ g, fuel = g + 1 := ⟨fuel - 1, by omega⟩
  rw [sampleLoop, if_pos ht]
  by_cases hd : dtheta s t = 0
  · rw [if_pos hd]
    rfl
  · rw [if_neg hd]
    rfl

/-- C6: for every spline of order at least 2, the adaptive sampling loop
terminates: an iteration with non-zero `dtheta` advances `t` by at least
`dtmin = 1/999`; an iteration with `dtheta` exactly 0 emits its point and ends
the loop (the Go step is IEEE infinite, so the `t < 1` guard fails next, and
no division error is raised — the zero divisor case is this explicit branch);
consequently the loop from `t = 0` finishes within 999 iterations, stated as:
every fuel of at least 1000 runs it identically to fuel 1000. -/
theorem c6_sampling_terminates (s : BezierSpline) (_hord : 2 ≤ s.order) :
    (∀ t : ℝ, dtheta s t ≠ 0 → t + dtmin ≤ nextT s t) ∧
    (∀ (t : ℝ) (fuel : ℕ), t < 1 → dtheta s t = 0 →
      sampleLoop s (fuel + 1) t = [s.f0 t]) ∧
    (∀ fuel : ℕ, 1000 ≤ fuel → sampleLoop s fuel 0 = sampleLoop s 1000 0) := by
  refine ⟨fun t => nextT_ge s t, ?_, ?_⟩
  · intro t fuel ht hd
    rw [sampleLoop, if_pos ht, if_pos hd]
  · intro fuel hf
    apply sampleLoop_stable 999 s 0 fuel 1000
    · rw [dtmin]
      push_cast
      norm_num
    · omega
    · omega

/-- Quadratic spline (the one produced for the curve of C3) used as the
concrete instance of the C6 witness. -/
noncomputable def c6S : BezierSpline := ⟨⟨2, 0, 10, 0, 0, 0⟩, ⟨2, 0, 20, -20, 0, 0⟩⟩

/-- C6 witness: the termination theorem applied to a concrete order-2
spline. -/
theorem c6_sampling_terminates_witness :
    2 ≤ c6S.order ∧
    ((∀ t : ℝ, dtheta c6S t ≠ 0 → t + dtmin ≤ nextT c6S t) ∧
    (∀ (t : ℝ) (fuel : ℕ), t < 1 → dtheta c6S t = 0 →
      sampleLoop c6S (fuel + 1) t = [c6S.f0 t]) ∧
    (∀ fuel : ℕ, 1000 ≤ fuel → sampleLoop c6S fuel 0 = sampleLoop c6S 1000 0)) :=
  ⟨by decide, c6_sampling_terminates c6S (by decide)⟩

/-- Helper: concrete coefficient computation for the x polynomial of the
2-point line of C7. -/
theorem set_line_x : BezierPolynomial.Set [(0 : ℝ), 10] = .ok ⟨1, 0, 10, 0, 0, 0⟩ := by
  have h : BezierPolynomial.Set [(0 : ℝ), 10] =
      .ok (BezierPolynomial.snapSmall ⟨1, 0, -0 + 10, 0, 0, 0⟩) := rfl
  rw [h]
  norm_num [BezierPolynomial.snapSmall, ZeroSmall, POLY_EPSILON]

/-- Helper: concrete coefficient computation for the y polynomial of the
2-point line of C7. -/
theorem set_line_y : BezierPolynomial.Set [(0 : ℝ), 0] = .ok ⟨1, 0, 0, 0, 0, 0⟩ := by
  have h : BezierPolynomial.Set [(0 : ℝ), 0] =
      .ok (BezierPolynomial.snapSmall ⟨1, 0, -0 + 0, 0, 0, 0⟩) := rfl
  rw [h]
  norm_num [BezierPolynomial.snapSmall, ZeroSmall, POLY_EPSILON]

/-- Helper: concrete coefficient computation for the x polynomial of the
quadratic of C3. -/
theorem set_quad_x :
    BezierPolynomial.Set [(0 : ℝ), 5, 10] = .ok ⟨2, 0, 10, 0, 0, 0⟩ := by
  have h : BezierPolynomial.Set [(0 : ℝ), 5, 10] =
      .ok (BezierPolynomial.snapSmall ⟨2, 0, -2 * 0 + 2 * 5, 0 - 2 * 5 + 10, 0, 0⟩) :=
    rfl
  rw [h]
  norm_num [BezierPolynomial.snapSmall, ZeroSmall, POLY_EPSILON]

/-- Helper: concrete coefficient computation for the y polynomial of the
quadratic of C3. -/
theorem set_quad_y :
    BezierPolynomial.Set [(0 : ℝ), 10, 0] = .ok ⟨2, 0, 20, -20, 0, 0⟩ := by
  have h : BezierPolynomial.Set [(0 : ℝ), 10, 0] =
      .ok (BezierPolynomial.snapSmall ⟨2, 0, -2 * 0 + 2 * 10, 0 - 2 * 10 + 0, 0, 0⟩) :=
    rfl
  rw [h]
  norm_num [BezierPolynomial.snapSmall, ZeroSmall, POLY_EPSILON]

/-- Helper: handle expansion of a vertex without handles yields just that
vertex. -/
theorem expandVertex_no_handles (t : BezierVertexType) (p : V2) :
    expandVertex ⟨t, p, ⟨0, 0⟩, ⟨0, 0⟩⟩ = [⟨t, p, ⟨0, 0⟩, ⟨0, 0⟩⟩] := by
  simp [expandVertex]

/-- Start vertex (0,0) of the 2-point line curve of C7. -/
def lineV0 : BezierVertex := ⟨ENDPOINT, ⟨0, 0⟩, ⟨0, 0⟩, ⟨0, 0⟩⟩

/-- End vertex (10,0) of the 2-point line curve of C7. -/
def lineV1 : BezierVertex := ⟨ENDPOINT, ⟨10, 0⟩, ⟨0, 0⟩, ⟨0, 0⟩⟩

/-- The 2-point, no-handle, open curve between (0,0) and (10,0) of C7. -/
def bLine : Bezier := ⟨false, [lineV0, lineV1]⟩

/-- Helper: handle expansion is the identity on the C7 line curve. -/
theorem handles_bLine : bLine.handles = bLine := by
  rw [Bezier.handles]
  show ({ bLine with vlist := _ } : Bezier) = bLine
  have hexp : bLine.vlist.flatMap expandVertex = [lineV0, lineV1] := by
    show ([lineV0, lineV1].flatMap expandVertex) = [lineV0, lineV1]
    rw [show lineV0 = (⟨ENDPOINT, ⟨0, 0⟩, ⟨0, 0⟩, ⟨0, 0⟩⟩ : BezierVertex) from rfl,
      show lineV1 = (⟨ENDPOINT, ⟨10, 0⟩, ⟨0, 0⟩, ⟨0, 0⟩⟩ : BezierVertex) from rfl]
    simp [expandVertex_no_handles]
  rw [hexp]
  have hrot : rotIdx [lineV0, lineV1] = 0 := by
    simp [rotIdx, List.findIdx?, lineV0]
  rw [hrot]
  simp [bLine]

/-- Helper: the fixups pipeline leaves the C7 line curve unchanged. -/
theorem fixups_bLine : bLine.fixups = .ok bLine := by
  rw [Bezier.fixups, handles_bLine]
  have hcl : bLine.closure = .ok bLine := by
    rw [Bezier.closure, if_neg]
    simp [bLine]
  rw [hcl, except_ok_bind]
  have hval : bLine.validate = .ok () := by
    simp [Bezier.validate, bLine, lineV0, lineV1, List.getLast]
  rw [hval, except_ok_bind]

/-- The spline rendered for the C7 line. -/
noncomputable def lineS : BezierSpline := ⟨⟨1, 0, 10, 0, 0, 0⟩, ⟨1, 0, 0, 0, 0, 0⟩⟩

/-- Helper: segmentation of the C7 line yields one order-1 spline. -/
theorem segment_bLine : segmentGo bLine.vlist = .ok [lineS] := by
  show segmentGo (lineV0 :: [lineV1]) = _
  rw [segmentGo, if_pos (show lineV0.vtype = ENDPOINT from rfl)]
  rw [segmentFrom, if_neg (show ¬lineV1.vtype = MIDPOINT by simp [lineV1])]
  have hNB : NewBezierSpline ([lineV0.vertex] ++ [lineV1.vertex]) = .ok lineS := by
    rw [NewBezierSpline]
    rw [show (([lineV0.vertex] ++ [lineV1.vertex]).map V2.X) = [(0 : ℝ), 10] from rfl]
    rw [show (([lineV0.vertex] ++ [lineV1.vertex]).map V2.Y) = [(0 : ℝ), 0] from rfl]
    rw [set_line_x, except_ok_bind, set_line_y, except_ok_bind]
    rfl
  rw [hNB, except_ok_bind]
  rw [if_pos (show (([] : List BezierVertex)).isEmpty = true from rfl)]

/-- C7: an order-1 spline renders to exactly its two end evaluations with no
intermediate samples, and the full pipeline flattens the 2-point, no-handle,
open curve between (0,0) and (10,0) to exactly the two points (0,0) and
(10,0). -/
theorem c7_linear_exactness (s : BezierSpline) (h : s.order = 1) :
    renderSpline s = [s.f0 0, s.f0 1] ∧
    bLine.Polygon = .ok [⟨0, 0⟩, ⟨10, 0⟩] := by
  constructor
  · rw [renderSpline, if_pos h]
  · rw [Bezier.Polygon, fixups_bLine, except_ok_bind, segment_bLine, except_ok_bind]
    have hrend : renderSpline lineS = [⟨0, 0⟩, ⟨10, 0⟩] := by
      rw [renderSpline, if_pos (show lineS.order = 1 from rfl)]
      have h0 : lineS.f0 0 = ⟨0, 0⟩ := by
        simp [BezierSpline.f0, BezierPolynomial.f0, lineS]
      have h1 : lineS.f0 1 = ⟨10, 0⟩ := by
        simp [BezierSpline.f0, BezierPolynomial.f0, lineS]
      rw [h0, h1]
    simp [hrend]

/-- C7 witness: the theorem applied to the concrete order-1 spline of the
line. -/
theorem c7_linear_exactness_witness :
    renderSpline lineS = [lineS.f0 0, lineS.f0 1] ∧
    bLine.Polygon = .ok [⟨0, 0⟩, ⟨10, 0⟩] :=
  c7_linear_exactness lineS rfl

/-- Start vertex (0,0) of the C3 quadratic curve. -/
def quadV0 : BezierVertex := ⟨ENDPOINT, ⟨0, 0⟩, ⟨0, 0⟩, ⟨0, 0⟩⟩

/-- Control midpoint (5,10) of the C3 quadratic curve. -/
def quadV1 : BezierVertex := ⟨MIDPOINT, ⟨5, 10⟩, ⟨0, 0⟩, ⟨0, 0⟩⟩

/-- End vertex (10,0) of the C3 quadratic curve. -/
def quadV2 : BezierVertex := ⟨ENDPOINT, ⟨10, 0⟩, ⟨0, 0⟩, ⟨0, 0⟩⟩

/-- The open curve endpoint(0,0), midpoint(5,10), endpoint(10,0) of C3. -/
def bQuad : Bezier := ⟨false, [quadV0, quadV1, quadV2]⟩

/-- Helper: handle expansion is the identity on the C3 quadratic curve. -/
theorem handles_bQuad : bQuad.handles = bQuad := by
  rw [Bezier.handles]
  show ({ bQuad with vlist := _ } : Bezier) = bQuad
  have hexp : bQuad.vlist.flatMap expandVertex = [quadV0, quadV1, quadV2] := by
    show ([quadV0, quadV1, quadV2].flatMap expandVertex) = [quadV0, quadV1, quadV2]
    rw [show quadV0 = (⟨ENDPOINT, ⟨0, 0⟩, ⟨0, 0⟩, ⟨0, 0⟩⟩ : BezierVertex) from rfl,
      show quadV1 = (⟨MIDPOINT, ⟨5, 10⟩, ⟨0, 0⟩, ⟨0, 0⟩⟩ : BezierVertex) from rfl,
      show quadV2 = (⟨ENDPOINT, ⟨10, 0⟩, ⟨0, 0⟩, ⟨0, 0⟩⟩ : BezierVertex) from rfl]
    simp [expandVertex_no_handles]
  rw [hexp]
  have hrot : rotIdx [quadV0, quadV1, quadV2] = 0 := by
    simp [rotIdx, List.findIdx?, quadV0]
  rw [hrot]
  simp [bQuad]

/-- Helper: the fixups pipeline leaves the C3 quadratic curve unchanged. -/
theorem fixups_bQuad : bQuad.fixups = .ok bQuad := by
  rw [Bezier.fixups, handles_bQuad]
  have hcl : bQuad.closure = .ok bQuad := by
    rw [Bezier.closure, if_neg]
    simp [bQuad]
  rw [hcl, except_ok_bind]
  have hval : bQuad.validate = .ok () := by
    simp [Bezier.validate, bQuad, quadV0, quadV1, quadV2, List.getLast]
  rw [hval, except_ok_bind]

/-- Helper: segmentation of the C3 quadratic yields exactly the order-2
spline with power-basis coefficients x(t) = 10t and y(t) = 20t - 20t^2. -/
theorem segment_bQuad : segmentGo bQuad.vlist = .ok [c6S] := by
  show segmentGo (quadV0 :: [quadV1, quadV2]) = _
  rw [segmentGo, if_pos (show quadV0.vtype = ENDPOINT from rfl)]
  rw [segmentFrom, if_pos (show quadV1.vtype = MIDPOINT from rfl)]
  rw [segmentFrom, if_neg (show ¬quadV2.vtype = MIDPOINT by simp [quadV2])]
  have hNB : NewBezierSpline (([quadV0.vertex] ++ [quadV1.vertex]) ++ [quadV2.vertex]) =
      .ok c6S := by
    rw [NewBezierSpline]
    rw [show ((([quadV0.vertex] ++ [quadV1.vertex]) ++ [quadV2.vertex]).map V2.X) =
      [(0 : ℝ), 5, 10] from rfl]
    rw [show ((([quadV0.vertex] ++ [quadV1.vertex]) ++ [quadV2.vertex]).map V2.Y) =
      [(0 : ℝ), 10, 0] from rfl]
    rw [set_quad_x, except_ok_bind, set_quad_y, except_ok_bind]
    rfl
  rw [hNB, except_ok_bind]
  rw [if_pos (show (([] : List BezierVertex)).isEmpty = true from rfl)]

/-- C3: flattening the open curve endpoint(0,0), midpoint(5,10),
endpoint(10,0) succeeds; the first output point is (0,0), the last is (10,0)
(the unconditional final emit of the endpoint evaluation), and the point
count is between 2 and 1001. -/
theorem c3_quadratic_flatten :
    ∃ pts : List V2, bQuad.Polygon = .ok pts ∧
      pts.head? = some ⟨0, 0⟩ ∧ pts.getLast? = some ⟨10, 0⟩ ∧
      2 ≤ pts.length ∧ pts.length ≤ 1001 := by
  refine ⟨sampleLoop c6S 1000 0 ++ [c6S.f0 1], ?_, ?_, ?_, ?_, ?_⟩
  · rw [Bezier.Polygon, fixups_bQuad, except_ok_bind, segment_bQuad, except_ok_bind]
    rw [show ([c6S].map renderSpline).flatten = renderSpline c6S by simp]
    rw [renderSpline, if_neg (by decide)]
  · have h1 : (sampleLoop c6S 1000 0).head? = some (c6S.f0 0) :=
      sampleLoop_head c6S 1000 0 (by norm_num) (by norm_num)
    rw [List.head?_append_of_ne_nil, h1]
    · have : c6S.f0 0 = ⟨0, 0⟩ := by
        simp [BezierSpline.f0, BezierPolynomial.f0, c6S]
      rw [this]
    · intro hn
      rw [hn] at h1
      simp at h1
  · rw [List.getLast?_concat]
    have : c6S.f0 1 = ⟨10, 0⟩ := by
      simp [BezierSpline.f0, BezierPolynomial.f0, c6S]
    rw [this]
  · have h1 : (sampleLoop c6S 1000 0).head? = some (c6S.f0 0) :=
      sampleLoop_head c6S 1000 0 (by norm_num) (by norm_num)
    have hne : sampleLoop c6S 1000 0 ≠ [] := by
      intro hn
      rw [hn] at h1
      simp at h1
    have : 1 ≤ (sampleLoop c6S 1000 0).length := List.length_pos.mpr hne
    simp only [List.length_append, List.length_singleton]
    omega
  · have := sampleLoop_length_le c6S 1000 0
    simp only [List.length_append, List.length_singleton]
    omega
